import Mathlib

/-!
Verification of the voice-chat front end handler (`gradio_app/app.py`).

The handler `voice_chat(audio, progress)` is sequential glue code around
external collaborators: a clock, an audio codec (`scipy.io.wavfile.write`),
the filesystem, an HTTP client (`requests.post`) and a progress sink.
We embed it shallowly: the collaborators' observable behaviors for one
submission are collected in an `Env` record, and `voice_chat` becomes a pure
function of the optional audio input and that environment.  Its result records
the returned pair (or an escaped exception), the successful file writes it
performed, and whether the network call was issued.
-/

namespace VoiceChat

/-- `API_URL` constant from `app.py` line 15. -/
def API_URL : String := "http://localhost:8000/voice-chat"

/-- `REQUEST_TIMEOUT` constant from `app.py` line 16 (seconds). -/
def REQUEST_TIMEOUT : Nat := 300

/-- The `(sr, audio_data)` pair produced by the recording surface. -/
structure CapturedAudio where
  sr : Nat
  samples : List Int
deriving DecidableEq

/-- A wall-clock instant: (whole seconds, subsecond remainder).  The code reads
the clock with `int(time.time())`, which truncates to whole seconds. -/
def intTime (t : Nat × Nat) : Nat := t.1

/-- Input file name, `app.py` line 39: `f"input_{int(time.time())}.wav"`. -/
def inputFileName (t : Nat) : String := "input_" ++ toString t ++ ".wav"

/-- Output file name, `app.py` line 96: `f"tts_output_{int(time.time())}.wav"`. -/
def outputFileName (t : Nat) : String := "tts_output_" ++ toString t ++ ".wav"

/-- `os.path.join(tempfile.gettempdir(), name)`. -/
def joinPath (dir file : String) : String := dir ++ "/" ++ file

/-- An HTTP response as the handler observes it.  `jsonMessageField` models
what `response.json().get('message', ...)` would see on a non-200 body:
`none` means parsing the body (or the `.get`) raises; `some mf` means the body
parses to a mapping whose optional `'message'` entry is `mf`. -/
structure HttpResponse where
  status_code : Nat
  content : List Nat
  jsonMessageField : Option (Option String)
deriving DecidableEq

/-- Outcome of the `requests.post` call (`app.py` lines 52-78): a response, or
one of the exceptions distinguished by the inner `except` clauses. -/
inductive HttpOutcome where
  | ok (resp : HttpResponse)
  | timeout
  | connectionError
  | otherException (msg : String)
deriving DecidableEq

/-- Behaviors of the external collaborators during one submission.
`progressExc k` is the exception (if any) the progress sink raises at the
milestone of `k` percent; `scipyExc` is the exception (if any) the codec
raises; `encode` gives the bytes the codec writes on success;
`inputExistsAfterWrite` is what `os.path.exists(audio_path)` reports after the
codec write; `outputWriteExc` is the exception (if any) raised while writing
the response bytes; `outputExistsAfterWrite` and `outputSizeAfterWrite` are
what `os.path.exists` / `os.path.getsize` report on the output file. -/
structure Env where
  tmpdir : String
  now1 : Nat × Nat
  now2 : Nat × Nat
  progressExc : Nat → Option String
  scipyExc : Option String
  encode : CapturedAudio → List Nat
  inputExistsAfterWrite : Bool
  http : HttpOutcome
  outputWriteExc : Option String
  outputExistsAfterWrite : Bool
  outputSizeAfterWrite : Nat

/-- One successful file write: target path and the bytes written. -/
structure FileWrite where
  path : String
  bytes : List Nat
deriving DecidableEq

/-- What one invocation of the handler did.  `ret` is `.ok (filePath?, message)`
for a normal return and `.error e` when an exception with description `e`
escaped to the caller; `writes` lists the successful file writes in order;
`networkCalled` records whether `requests.post` was issued. -/
structure HandlerResult where
  ret : Except String (Option String × String)
  writes : List FileWrite
  networkCalled : Bool

/- The user-facing strings of `app.py`, verbatim. -/

def msgNoAudio : String := "⚠️ Mohon rekam suara terlebih dahulu"

def msgSaveFail : String := "⚠️ Gagal menyimpan file audio"

def msgTimeout : String :=
  "🕒 Waktu permintaan habis. Server membutuhkan waktu terlalu lama untuk merespons."

def msgConn : String :=
  "🔌 Tidak dapat terhubung ke server. Pastikan server berjalan di http://localhost:8000"

def msgReqErr (e : String) : String := "🔴 Error: " ++ e

def msgEmpty : String := "⚠️ Server mengembalikan respons kosong"

def msgInvalidOut : String := "⚠️ File audio respons kosong atau tidak valid"

def msgWriteFail (e : String) : String :=
  "⚠️ Gagal menyimpan file audio respons: " ++ e

def msgSuccess : String := "✅ Berhasil mendapatkan respons"

def msgServerErr (detail : String) : String := "⚠️ Server Error: " ++ detail

def msgUnexpected (e : String) : String := "⚠️ Terjadi kesalahan: " ++ e

/-- `error_detail` computed on a non-200 response (`app.py` lines 120-125):
if the body is empty, `error_content = {}` and the `'message'` lookup falls
back to the status-code string; otherwise the body is parsed, and any
exception or an absent `'message'` field also falls back to the status-code
string. -/
def errorDetail (resp : HttpResponse) : String :=
  if resp.content = [] then "Kode status: " ++ toString resp.status_code
  else
    match resp.jsonMessageField with
    | some (some m) => m
    | _ => "Kode status: " ++ toString resp.status_code

/-- The body of the outer `try` block (`app.py` lines 32-128).  `.error e`
means an exception with description `e` was raised out of the block (to be
caught at line 130); the other two components are the file writes performed
and whether the network call was issued. -/
def tryBody (audio : CapturedAudio) (env : Env) :
    Except String (Option String × String) × List FileWrite × Bool :=
  match env.scipyExc with
  | some e => (.error e, [], false)
  | none =>
    let audioPath := joinPath env.tmpdir (inputFileName (intTime env.now1))
    let w1 : List FileWrite := [⟨audioPath, env.encode audio⟩]
    if env.inputExistsAfterWrite = false then
      (.ok (none, msgSaveFail), w1, false)
    else
      match env.progressExc 30 with
      | some e => (.error e, w1, false)
      | none =>
        match env.http with
        | .timeout => (.ok (none, msgTimeout), w1, true)
        | .connectionError => (.ok (none, msgConn), w1, true)
        | .otherException e => (.ok (none, msgReqErr e), w1, true)
        | .ok resp =>
          match env.progressExc 70 with
          | some e => (.error e, w1, true)
          | none =>
            if resp.status_code = 200 then
              if resp.content = [] then (.ok (none, msgEmpty), w1, true)
              else
                let outPath := joinPath env.tmpdir (outputFileName (intTime env.now2))
                match env.outputWriteExc with
                | some e => (.ok (none, msgWriteFail e), w1, true)
                | none =>
                  let w2 := w1 ++ [⟨outPath, resp.content⟩]
                  if env.outputExistsAfterWrite = false ∨ env.outputSizeAfterWrite = 0 then
                    (.ok (none, msgInvalidOut), w2, true)
                  else
                    match env.progressExc 100 with
                    | some e => (.error e, w2, true)
                    | none => (.ok (some outPath, msgSuccess), w2, true)
            else
              (.ok (none, msgServerErr (errorDetail resp)), w1, true)

/-- The handler `voice_chat` (`app.py` lines 21-133).  Note that the
`progress(0, ...)` call at line 30 happens before the `try` block at line 32:
an exception raised by the progress sink there escapes to the caller. -/
def voice_chat (audio : Option CapturedAudio) (env : Env) : HandlerResult :=
  match audio with
  | none => ⟨.ok (none, msgNoAudio), [], false⟩
  | some a =>
    match env.progressExc 0 with
    | some e => ⟨.error e, [], false⟩
    | none =>
      match tryBody a env with
      | (.error e, w, n) => ⟨.ok (none, msgUnexpected e), w, n⟩
      | (.ok r, w, n) => ⟨.ok r, w, n⟩

/-! ### Helper lemmas -/

/-- Two strings differ when the first starts with a character the second does
not start with; stable under appending any suffix to the first. -/
theorem append_ne_of_head (pre suf t : String) (c : Char)
    (h1 : pre.data.head? = some c) (h2 : t.data.head? ≠ some c) :
    pre ++ suf ≠ t := by
  intro he
  apply h2
  rw [← he, String.data_append]
  cases hd : pre.data with
  | nil => rw [hd] at h1; simp at h1
  | cons a l =>
    rw [hd] at h1
    simpa using h1

theorem msgReqErr_ne_success (e : String) : msgReqErr e ≠ msgSuccess :=
  append_ne_of_head "🔴 Error: " e msgSuccess '🔴' (by decide) (by decide)

theorem msgWriteFail_ne_success (e : String) : msgWriteFail e ≠ msgSuccess :=
  append_ne_of_head "⚠️ Gagal menyimpan file audio respons: " e msgSuccess '⚠'
    (by decide) (by decide)

theorem msgServerErr_ne_success (d : String) : msgServerErr d ≠ msgSuccess :=
  append_ne_of_head "⚠️ Server Error: " d msgSuccess '⚠' (by decide) (by decide)

theorem msgUnexpected_ne_success (e : String) : msgUnexpected e ≠ msgSuccess :=
  append_ne_of_head "⚠️ Terjadi kesalahan: " e msgSuccess '⚠' (by decide) (by decide)

/-- Inside the outer try block, a normal return carries a file path exactly
when it carries the success message. -/
theorem tryBody_path_iff_success (a : CapturedAudio) (env : Env)
    (p : Option String) (m : String) (w : List FileWrite) (n : Bool)
    (h : tryBody a env = (.ok (p, m), w, n)) :
    p ≠ none ↔ m = msgSuccess := by
  cases hsc : env.scipyExc with
  | some e => simp [tryBody, hsc] at h
  | none =>
  by_cases hin : env.inputExistsAfterWrite = false
  · simp [tryBody, hsc, hin] at h
    obtain ⟨⟨rfl, rfl⟩, -⟩ := h
    simp
    decide
  · cases h30 : env.progressExc 30 with
    | some e => simp [tryBody, hsc, hin, h30] at h
    | none =>
    cases hhttp : env.http with
    | timeout =>
      simp [tryBody, hsc, hin, h30, hhttp] at h
      obtain ⟨⟨rfl, rfl⟩, -⟩ := h
      simp
      decide
    | connectionError =>
      simp [tryBody, hsc, hin, h30, hhttp] at h
      obtain ⟨⟨rfl, rfl⟩, -⟩ := h
      simp
      decide
    | otherException e =>
      simp [tryBody, hsc, hin, h30, hhttp] at h
      obtain ⟨⟨rfl, rfl⟩, -⟩ := h
      simp
      exact msgReqErr_ne_success e
    | ok resp =>
      cases h70 : env.progressExc 70 with
      | some e => simp [tryBody, hsc, hin, h30, hhttp, h70] at h
      | none =>
      by_cases hst : resp.status_code = 200
      · by_cases hc : resp.content = []
        · simp [tryBody, hsc, hin, h30, hhttp, h70, hst, hc] at h
          obtain ⟨⟨rfl, rfl⟩, -⟩ := h
          simp
          decide
        · cases hwx : env.outputWriteExc with
          | some e =>
            simp [tryBody, hsc, hin, h30, hhttp, h70, hst, hc, hwx] at h
            obtain ⟨⟨rfl, rfl⟩, -⟩ := h
            simp
            exact msgWriteFail_ne_success e
          | none =>
            by_cases hok : env.outputExistsAfterWrite = false ∨ env.outputSizeAfterWrite = 0
            · simp [tryBody, hsc, hin, h30, hhttp, h70, hst, hc, hwx, hok] at h
              obtain ⟨⟨rfl, rfl⟩, -⟩ := h
              simp
              decide
            · cases h100 : env.progressExc 100 with
              | some e => simp [tryBody, hsc, hin, h30, hhttp, h70, hst, hc, hwx, hok, h100] at h
              | none =>
                simp [tryBody, hsc, hin, h30, hhttp, h70, hst, hc, hwx, hok, h100] at h
                obtain ⟨⟨rfl, rfl⟩, -⟩ := h
                simp
      · simp [tryBody, hsc, hin, h30, hhttp, h70, hst] at h
        obtain ⟨⟨rfl, rfl⟩, -⟩ := h
        simp
        exact msgServerErr_ne_success (errorDetail resp)

/-! ### Concrete environments used as witnesses and counterexamples -/

def okResp : HttpResponse := ⟨200, [1, 2], some none⟩

def okEnv : Env :=
  ⟨"/tmp", (10, 5), (11, 6), fun _ => none, none, fun _ => [7, 8], true,
    .ok okResp, none, true, 2⟩

def err404Resp : HttpResponse := ⟨404, [1], some (some "not found")⟩

def err404Env : Env :=
  ⟨"/tmp", (10, 5), (11, 6), fun _ => none, none, fun _ => [7, 8], true,
    .ok err404Resp, none, true, 0⟩

def timeoutEnv : Env :=
  ⟨"/tmp", (10, 5), (11, 6), fun _ => none, none, fun _ => [7, 8], true,
    .timeout, none, true, 0⟩

def connFailEnv : Env :=
  ⟨"/tmp", (10, 5), (11, 6), fun _ => none, none, fun _ => [7, 8], true,
    .connectionError, none, true, 0⟩

def emptyBodyEnv : Env :=
  ⟨"/tmp", (10, 5), (11, 6), fun _ => none, none, fun _ => [7, 8], true,
    .ok ⟨200, [], none⟩, none, true, 0⟩

def inputGoneEnv : Env :=
  ⟨"/tmp", (10, 5), (11, 6), fun _ => none, none, fun _ => [7, 8], false,
    .timeout, none, true, 0⟩

def progressBoomEnv : Env :=
  ⟨"/tmp", (0, 0), (0, 0), fun k => if k = 0 then some "boom" else none, none,
    fun _ => [], true, .timeout, none, true, 0⟩

def sameSecondEnv (frac : Nat) : Env :=
  ⟨"/tmp", (100, frac), (100, frac), fun _ => none, none, fun _ => [7], true,
    .ok ⟨200, [1, 2, 3], none⟩, none, true, 3⟩

def scipyBoomEnv : Env :=
  ⟨"/tmp", (0, 0), (0, 0), fun _ => none, some "disk full", fun _ => [], true,
    .timeout, none, true, 0⟩

def demoAudio : CapturedAudio := ⟨16000, [0]⟩

/-! ### Claims -/

/-- C1: for every HTTP response with status 200 and a non-empty body, when the
collaborators behave normally (no exception from the codec, progress sink or
filesystem; the input file is present after encoding; the output file is
present after writing with the written size), the handler writes the response
bytes verbatim to the new output file and returns that file's path together
with the success message; the bytes of the written file equal the response
body exactly. -/
theorem c1_success_roundtrip (a : CapturedAudio) (env : Env) (resp : HttpResponse)
    (hhttp : env.http = .ok resp)
    (hst : resp.status_code = 200)
    (hne : resp.content ≠ [])
    (hp0 : env.progressExc 0 = none)
    (hp30 : env.progressExc 30 = none)
    (hp70 : env.progressExc 70 = none)
    (hp100 : env.progressExc 100 = none)
    (hsc : env.scipyExc = none)
    (hin : env.inputExistsAfterWrite = true)
    (hwx : env.outputWriteExc = none)
    (hoe : env.outputExistsAfterWrite = true)
    (hos : env.outputSizeAfterWrite = resp.content.length) :
    (voice_chat (some a) env).ret =
      .ok (some (joinPath env.tmpdir (outputFileName (intTime env.now2))), msgSuccess) ∧
    FileWrite.mk (joinPath env.tmpdir (outputFileName (intTime env.now2))) resp.content ∈
      (voice_chat (some a) env).writes := by
  have hne' : resp.content.length ≠ 0 := fun hlen => hne (List.length_eq_zero.mp hlen)
  constructor <;>
    simp [voice_chat, tryBody, hhttp, hst, hne, hp0, hp30, hp70, hp100, hsc, hin,
      hwx, hoe, hos, hne']

/-- C1 witness: concrete run with a 200 response carrying bytes `[1, 2]`. -/
theorem c1_success_roundtrip_witness :
    okEnv.http = .ok okResp ∧ okResp.status_code = 200 ∧
    ((voice_chat (some demoAudio) okEnv).ret =
      .ok (some (joinPath okEnv.tmpdir (outputFileName (intTime okEnv.now2))), msgSuccess) ∧
    FileWrite.mk (joinPath okEnv.tmpdir (outputFileName (intTime okEnv.now2))) okResp.content ∈
      (voice_chat (some demoAudio) okEnv).writes) :=
  ⟨rfl, rfl,
    c1_success_roundtrip demoAudio okEnv okResp rfl rfl (by decide) rfl rfl rfl rfl
      rfl rfl rfl rfl rfl⟩

/-- C2: the claim asks for distinctly named output files for any two
submissions in immediate succession, with sub-clock-tick entropy in the names.
The code derives both names from `int(time.time())`, which truncates to whole
seconds: two submissions at the distinct instants 100.2s and 100.7s (the same
whole second) both succeed and both return the very same output path
`/tmp/tts_output_100.wav`, so the second write overwrites the first. -/
theorem c2_same_tick_name_collision :
    ((100, 2) : Nat × Nat) ≠ (100, 7) ∧
    (sameSecondEnv 2).now2 = (100, 2) ∧ (sameSecondEnv 7).now2 = (100, 7) ∧
    (voice_chat (some demoAudio) (sameSecondEnv 2)).ret =
      .ok (some (joinPath "/tmp" (outputFileName 100)), msgSuccess) ∧
    (voice_chat (some demoAudio) (sameSecondEnv 7)).ret =
      .ok (some (joinPath "/tmp" (outputFileName 100)), msgSuccess) :=
  ⟨by decide, rfl, rfl, rfl, rfl⟩

/-- C3: for every behavior of the collaborators, an absent audio input makes
the handler return no file path and the warning message asking the user to
record first, with no file write and no network call. -/
theorem c3_absent_audio (env : Env) :
    voice_chat none env = ⟨.ok (none, msgNoAudio), [], false⟩ := rfl

/-- C4: for every non-200 response (collaborators otherwise behaving), the
handler returns no file and an error message built from `errorDetail`; that
message contains the structured body's `message` field value when the body is
non-empty and parses with the field present, and otherwise contains the
numeric status code. -/
theorem c4_non200_error (a : CapturedAudio) (env : Env) (resp : HttpResponse)
    (hhttp : env.http = .ok resp)
    (hst : resp.status_code ≠ 200)
    (hp0 : env.progressExc 0 = none)
    (hp30 : env.progressExc 30 = none)
    (hp70 : env.progressExc 70 = none)
    (hsc : env.scipyExc = none)
    (hin : env.inputExistsAfterWrite = true) :
    (voice_chat (some a) env).ret = .ok (none, msgServerErr (errorDetail resp)) ∧
    (∀ m, resp.content ≠ [] → resp.jsonMessageField = some (some m) →
      msgServerErr (errorDetail resp) = "⚠️ Server Error: " ++ m) ∧
    ((resp.content = [] ∨ ∀ m, resp.jsonMessageField ≠ some (some m)) →
      msgServerErr (errorDetail resp) =
        "⚠️ Server Error: " ++ ("Kode status: " ++ toString resp.status_code)) := by
  refine ⟨?_, ?_, ?_⟩
  · simp [voice_chat, tryBody, hhttp, hst, hp0, hp30, hp70, hsc, hin]
  · intro m hc hj
    simp [msgServerErr, errorDetail, hc, hj]
  · rintro (hc | hall)
    · simp [msgServerErr, errorDetail, hc]
    · by_cases hc : resp.content = []
      · simp [msgServerErr, errorDetail, hc]
      · cases hj : resp.jsonMessageField with
        | none => simp [msgServerErr, errorDetail, hc, hj]
        | some mf =>
          cases mf with
          | none => simp [msgServerErr, errorDetail, hc, hj]
          | some m => exact absurd hj (hall m)

/-- C4 witness: concrete 404 response whose body parses with the message
field "not found". -/
theorem c4_non200_error_witness :
    err404Env.http = .ok err404Resp ∧ err404Resp.status_code ≠ 200 ∧
    ((voice_chat (some demoAudio) err404Env).ret =
      .ok (none, msgServerErr (errorDetail err404Resp)) ∧
    (∀ m, err404Resp.content ≠ [] → err404Resp.jsonMessageField = some (some m) →
      msgServerErr (errorDetail err404Resp) = "⚠️ Server Error: " ++ m) ∧
    ((err404Resp.content = [] ∨ ∀ m, err404Resp.jsonMessageField ≠ some (some m)) →
      msgServerErr (errorDetail err404Resp) =
        "⚠️ Server Error: " ++ ("Kode status: " ++ toString err404Resp.status_code))) :=
  ⟨rfl, by decide,
    c4_non200_error demoAudio err404Env err404Resp rfl (by decide) rfl rfl rfl rfl rfl⟩

/-- C5 counterexample: the claim says no exception from any collaborator ever
escapes the handler, but the `progress(0, ...)` call at line 30 of `app.py`
runs before the `try` block at line 32: a progress sink that raises at the 0%
milestone makes the handler raise to its caller. -/
theorem c5_counterexample_progress_escape :
    (voice_chat (some demoAudio) progressBoomEnv).ret = .error "boom" := rfl

/-- C5 amended: provided the progress sink does not raise at the initial 0%
milestone, the handler returns normally on every input and every collaborator
behavior (no exception escapes), and whenever an exception with description
`e` is raised out of the try-block body (codec, filesystem, HTTP client, or
the progress reports at the 30/70/100% milestones), the top-level handler
converts it to the generic Error result carrying that description,
`msgUnexpected e`, with no file path. -/
theorem c5_no_escape_after_start (audio : Option CapturedAudio) (env : Env)
    (h : env.progressExc 0 = none) :
    (∃ p m, (voice_chat audio env).ret = .ok (p, m)) ∧
    ∀ a e w n, audio = some a → tryBody a env = (.error e, w, n) →
      (voice_chat audio env).ret = .ok (none, msgUnexpected e) := by
  constructor
  · cases audio with
    | none => exact ⟨none, msgNoAudio, rfl⟩
    | some a =>
      rcases ht : tryBody a env with ⟨r, w, n⟩
      cases r with
      | error e => exact ⟨none, msgUnexpected e, by simp [voice_chat, h, ht]⟩
      | ok pr => exact ⟨pr.1, pr.2, by simp [voice_chat, h, ht]⟩
  · rintro a e w n rfl ht
    simp [voice_chat, h, ht]

/-- C5 witness: concrete run in which the codec raises "disk full" inside the
try block; the handler returns normally with the generic Error message
carrying that description. -/
theorem c5_no_escape_after_start_witness :
    scipyBoomEnv.progressExc 0 = none ∧
    tryBody demoAudio scipyBoomEnv = (.error "disk full", [], false) ∧
    (voice_chat (some demoAudio) scipyBoomEnv).ret =
      .ok (none, msgUnexpected "disk full") :=
  ⟨rfl, rfl,
    (c5_no_escape_after_start (some demoAudio) scipyBoomEnv rfl).2
      demoAudio "disk full" [] false rfl rfl⟩

/-- C6: for every submission whose upload times out (collaborators otherwise
behaving), the handler returns no file path, the timeout error message, and
writes no output file (only the input WAV was written); the timeout bound is
the fixed constant 300 seconds. -/
theorem c6_timeout (a : CapturedAudio) (env : Env)
    (hp0 : env.progressExc 0 = none)
    (hp30 : env.progressExc 30 = none)
    (hsc : env.scipyExc = none)
    (hin : env.inputExistsAfterWrite = true)
    (hhttp : env.http = .timeout) :
    (voice_chat (some a) env).ret = .ok (none, msgTimeout) ∧
    (voice_chat (some a) env).writes =
      [⟨joinPath env.tmpdir (inputFileName (intTime env.now1)), env.encode a⟩] ∧
    REQUEST_TIMEOUT = 300 := by
  refine ⟨?_, ?_, rfl⟩ <;>
    simp [voice_chat, tryBody, hp0, hp30, hsc, hin, hhttp]

/-- C6 witness: concrete run whose upload times out. -/
theorem c6_timeout_witness :
    timeoutEnv.http = .timeout ∧
    ((voice_chat (some demoAudio) timeoutEnv).ret = .ok (none, msgTimeout) ∧
    (voice_chat (some demoAudio) timeoutEnv).writes =
      [⟨joinPath timeoutEnv.tmpdir (inputFileName (intTime timeoutEnv.now1)),
        timeoutEnv.encode demoAudio⟩] ∧
    REQUEST_TIMEOUT = 300) :=
  ⟨rfl, c6_timeout demoAudio timeoutEnv rfl rfl rfl rfl rfl⟩

/-- C7: for every submission whose connection cannot be established
(collaborators otherwise behaving), the handler returns no file path, the
cannot-reach-server error message, and writes no output file. -/
theorem c7_connection_failure (a : CapturedAudio) (env : Env)
    (hp0 : env.progressExc 0 = none)
    (hp30 : env.progressExc 30 = none)
    (hsc : env.scipyExc = none)
    (hin : env.inputExistsAfterWrite = true)
    (hhttp : env.http = .connectionError) :
    (voice_chat (some a) env).ret = .ok (none, msgConn) ∧
    (voice_chat (some a) env).writes =
      [⟨joinPath env.tmpdir (inputFileName (intTime env.now1)), env.encode a⟩] := by
  constructor <;>
    simp [voice_chat, tryBody, hp0, hp30, hsc, hin, hhttp]

/-- C7 witness: concrete run whose connection is refused. -/
theorem c7_connection_failure_witness :
    connFailEnv.http = .connectionError ∧
    ((voice_chat (some demoAudio) connFailEnv).ret = .ok (none, msgConn) ∧
    (voice_chat (some demoAudio) connFailEnv).writes =
      [⟨joinPath connFailEnv.tmpdir (inputFileName (intTime connFailEnv.now1)),
        connFailEnv.encode demoAudio⟩]) :=
  ⟨rfl, c7_connection_failure demoAudio connFailEnv rfl rfl rfl rfl rfl⟩

/-- C8: for every status-200 response with an empty body (collaborators
otherwise behaving), the handler returns no file path and the
empty-response error message, and writes no output file. -/
theorem c8_empty_body (a : CapturedAudio) (env : Env) (resp : HttpResponse)
    (hhttp : env.http = .ok resp)
    (hst : resp.status_code = 200)
    (hc : resp.content = [])
    (hp0 : env.progressExc 0 = none)
    (hp30 : env.progressExc 30 = none)
    (hp70 : env.progressExc 70 = none)
    (hsc : env.scipyExc = none)
    (hin : env.inputExistsAfterWrite = true) :
    (voice_chat (some a) env).ret = .ok (none, msgEmpty) ∧
    (voice_chat (some a) env).writes =
      [⟨joinPath env.tmpdir (inputFileName (intTime env.now1)), env.encode a⟩] := by
  constructor <;>
    simp [voice_chat, tryBody, hhttp, hst, hc, hp0, hp30, hp70, hsc, hin]

/-- C8 witness: concrete run with a 200 response and empty body. -/
theorem c8_empty_body_witness :
    emptyBodyEnv.http = .ok ⟨200, [], none⟩ ∧
    ((voice_chat (some demoAudio) emptyBodyEnv).ret = .ok (none, msgEmpty) ∧
    (voice_chat (some demoAudio) emptyBodyEnv).writes =
      [⟨joinPath emptyBodyEnv.tmpdir (inputFileName (intTime emptyBodyEnv.now1)),
        emptyBodyEnv.encode demoAudio⟩]) :=
  ⟨rfl, c8_empty_body demoAudio emptyBodyEnv ⟨200, [], none⟩ rfl rfl rfl rfl rfl rfl rfl rfl⟩

/-- C9: for every input and every collaborator behavior, whenever the handler
returns normally, the returned file path is non-None exactly when the returned
message is the success message. -/
theorem c9_path_iff_success (audio : Option CapturedAudio) (env : Env)
    (p : Option String) (m : String)
    (h : (voice_chat audio env).ret = .ok (p, m)) :
    p ≠ none ↔ m = msgSuccess := by
  cases audio with
  | none =>
    simp [voice_chat] at h
    obtain ⟨rfl, rfl⟩ := h
    simp
    decide
  | some a =>
    cases h0 : env.progressExc 0 with
    | some e => simp [voice_chat, h0] at h
    | none =>
      rcases ht : tryBody a env with ⟨r, w, n⟩
      cases r with
      | error e =>
        simp [voice_chat, h0, ht] at h
        obtain ⟨rfl, rfl⟩ := h
        simp
        exact msgUnexpected_ne_success e
      | ok pr =>
        rcases pr with ⟨p', m'⟩
        simp [voice_chat, h0, ht] at h
        obtain ⟨rfl, rfl⟩ := h
        exact tryBody_path_iff_success a env _ _ _ _ ht

/-- C9 witness: concrete successful run, whose path is present and whose
message is the success message. -/
theorem c9_path_iff_success_witness :
    (voice_chat (some demoAudio) okEnv).ret =
      .ok (some (joinPath okEnv.tmpdir (outputFileName (intTime okEnv.now2))), msgSuccess) ∧
    (some (joinPath okEnv.tmpdir (outputFileName (intTime okEnv.now2))) ≠ none ↔
      msgSuccess = msgSuccess) :=
  ⟨rfl, c9_path_iff_success (some demoAudio) okEnv _ _ rfl⟩

/-- C10: for every submission in which the input WAV file does not exist on
disk after a successful encode, the handler returns no file path and the
localized input-save-failure message, and performs no network call. -/
theorem c10_input_save_failure (a : CapturedAudio) (env : Env)
    (hp0 : env.progressExc 0 = none)
    (hsc : env.scipyExc = none)
    (hin : env.inputExistsAfterWrite = false) :
    (voice_chat (some a) env).ret = .ok (none, msgSaveFail) ∧
    (voice_chat (some a) env).networkCalled = false := by
  constructor <;> simp [voice_chat, tryBody, hp0, hsc, hin]

/-- C10 witness: concrete run in which the input file has vanished. -/
theorem c10_input_save_failure_witness :
    inputGoneEnv.inputExistsAfterWrite = false ∧
    ((voice_chat (some demoAudio) inputGoneEnv).ret = .ok (none, msgSaveFail) ∧
    (voice_chat (some demoAudio) inputGoneEnv).networkCalled = false) :=
  ⟨rfl, c10_input_save_failure demoAudio inputGoneEnv rfl rfl rfl⟩

end VoiceChat
